import Mathlib

/-!
Shallow embedding of the LychiiBot message acceptance and routing core
(`src/index.js`): the acceptance filter (`isAcceptable`), the normalizer
(`trimMessage`), the subtype classifier and plugin fan-out inside
`onIncomingMessage` / `processMessage`, the plugin registration lifecycle
(`registerPlugin` / `loadPlugins`), and the identity construction
(`onAuthenticated`).

Modelling conventions:
- JavaScript string-or-undefined values are `Option String`; the JS strict
  equality `===` between two such values is `BEq` on `Option String`
  (undefined === undefined is true, undefined === "x" is false).
- A JS method that throws is modelled as returning `none` (for the
  normalizer) or a dedicated error outcome (for the event handler): the
  source has no try/catch anywhere on these paths, so a throw escapes the
  enclosing handler.
- The mention regex built at line 153 of the source,
  new RegExp("^(@?" + name + "\\s)", "i"), is modelled character by
  character: optional leading at-sign, then the bot name case-insensitively,
  then one whitespace character.  Bot names containing regex
  metacharacters are outside the model (real bot display names are plain
  words, and the spec speaks only of the display name itself).
- `RegExp.test(undefined)` in JS coerces the argument to the string
  "undefined"; `isAcceptable` reproduces that coercion.
-/

/-- Whitespace class of the JS regex escape `\s` and of
`String.prototype.trim`: space, tab, line feed, carriage return, vertical
tab, form feed, and the common Unicode members (NBSP, BOM, line and
paragraph separators). -/
def isJsWs (c : Char) : Bool :=
  c == ' ' || c == '\t' || c == '\n' || c == '\r' || c == '\x0b' ||
  c == '\x0c' || c == '\u00A0' || c == '\uFEFF' || c == '\u2028' || c == '\u2029'

/-- JS `String.prototype.trim`: drop leading and trailing whitespace. -/
def jsTrim (s : String) : String :=
  String.mk (((s.toList.dropWhile isJsWs).reverse.dropWhile isJsWs).reverse)

/-- Match the bot name character by character, case-insensitively (the
regex is compiled with the `i` flag); on success return the remaining
text. -/
def matchName : List Char → List Char → Option (List Char)
  | [], rest => some rest
  | _ :: _, [] => none
  | n :: ns, c :: cs => if n.toLower == c.toLower then matchName ns cs else none

/-- The single `\s` the regex requires after the name. -/
def matchWsChar : List Char → Option (List Char)
  | [] => none
  | c :: cs => if isJsWs c then some cs else none

/-- Match the anchored group `(@?name\s)` at the start of `text`; on
success return the text after the match.  The regex engine first tries
`@?` consuming an at-sign, then backtracks to the empty alternative. -/
def matchMention (name text : List Char) : Option (List Char) :=
  let withoutAt := (matchName name text).bind matchWsChar
  match text with
  | '@' :: rest =>
    match (matchName name rest).bind matchWsChar with
    | some r => some r
    | none => withoutAt
  | _ => withoutAt

/-- `selfRecognizeRegex.test text` of the source. -/
def mentionTest (name text : String) : Bool :=
  (matchMention name.toList text.toList).isSome

/-- `text.replace(selfRecognizeRegex, "")` of the source: remove exactly
one leading mention match, or leave the text unchanged. -/
def stripMention (name text : String) : String :=
  match matchMention name.toList text.toList with
  | some rest => String.mk rest
  | none => text

/-- A `user` record attached to an inbound event (`metaMsg.user`). -/
structure UserRec where
  uid : Option String
deriving DecidableEq, Repr

/-- A `bot` record attached to an inbound event (`metaMsg.bot`). -/
structure BotRec where
  bid : Option String
deriving DecidableEq, Repr

/-- The own identity of the bot (`this.self`): user id, the service identity id
resolved at authentication (`this.self.botId`, undefined when never set),
and the display name used to build the mention regex. -/
structure SelfIdentity where
  sid : Option String
  botId : Option String
  sname : String
deriving DecidableEq, Repr

/-- An inbound event (`metaMsg`).  Every field a JS consumer may find
absent is an `Option`.  `channel` carries just the channel name, the only
part the handler dereferences (`channel.name` in every debug line). -/
structure MetaMsg where
  text : Option String
  user : Option UserRec
  bot : Option BotRec
  channel : Option String
  subtype : Option String
  topic : Option String
  isDM : Bool
deriving DecidableEq, Repr

/-- Line 189 of the source: `user && user.id === this.self.id`. -/
def isSelfUser (self : SelfIdentity) (m : MetaMsg) : Bool :=
  match m.user with
  | some u => u.uid == self.sid
  | none => false

/-- Line 190 of the source: `bot && bot.id === this.self.botId`. -/
def isSelfBot (self : SelfIdentity) (m : MetaMsg) : Bool :=
  match m.bot with
  | some b => b.bid == self.botId
  | none => false

/-- `LychiiBot.isAcceptable` (lines 186-199): reject self-authored events,
accept direct messages, otherwise require the mention pattern on the text.
An absent text reaches `regex.test(undefined)`, which coerces the
argument to the string "undefined". -/
def isAcceptable (self : SelfIdentity) (m : MetaMsg) : Bool :=
  if isSelfUser self m then false
  else if isSelfBot self m then false
  else if m.isDM then true
  else mentionTest self.sname (m.text.getD "undefined")

/-- `LychiiBot.trimMessage` (lines 201-205): `metaMsg.text.trim()` then
removal of one leading mention match.  When `metaMsg.text` is absent the
`.trim()` call throws a TypeError, modelled as `none`. -/
def trimMessage (name : String) (m : MetaMsg) : Option MetaMsg :=
  match m.text with
  | none => none
  | some t => some { m with text := some (stripMention name (jsTrim t)) }

/-- A registered plugin as the dispatcher sees it: its name, its optional
`init` hook and whether that hook returns normally, and whether its
`processMessage` returns normally on a given event (`false` = throws). -/
structure Plugin where
  pname : String
  hasInit : Bool
  initOk : Bool
  ok : MetaMsg → Bool

/-- `LychiiBot.registerPlugin` (lines 96-105): instantiate, push onto
`this.plugins`, then call the optional `init` hook with no try/catch.  The
returned flag is false when `init` throws; the instance was already
pushed before the throw. -/
def registerPlugin (regd : List Plugin) (d : Plugin) : List Plugin × Bool :=
  (regd ++ [d], !(d.hasInit && !d.initOk))

/-- `LychiiBot.loadPlugins` (lines 71-94) on an explicit plugin list:
`plugins.map((plugin) => this.registerPlugin(plugin))`.  A throw escaping
`registerPlugin` aborts the `map`, so the remaining definitions are never
registered; the flag records whether loading completed. -/
def loadPlugins : List Plugin → List Plugin → List Plugin × Bool
  | [], regd => (regd, true)
  | d :: ds, regd =>
    let r := registerPlugin regd d
    if r.2 then loadPlugins ds r.1 else (r.1, false)

/-- `LychiiBot.processMessage` (lines 207-212):
`this.plugins.map((plugin) => plugin.processMessage(metaMsg))` with no
try/catch.  Returns the names of the plugins whose `processMessage` was
entered, in order, and whether the fan-out completed without a throw: the
first throwing plugin is entered, its exception aborts the `map`, and the
plugins after it are never invoked. -/
def processMessage : List Plugin → MetaMsg → List String × Bool
  | [], _ => ([], true)
  | p :: ps, m =>
    if p.ok m then
      let r := processMessage ps m
      (p.pname :: r.1, r.2)
    else
      ([p.pname], false)

/-- `subtype = subtype || "message"` (line 161): absent or empty subtype
defaults to "message". -/
def effectiveSubtype (m : MetaMsg) : String :=
  match m.subtype with
  | none => "message"
  | some s => if s == "" then "message" else s

/-- The six subtypes of the switch (lines 164-176) that only produce a
debug line and never reach the plugin fan-out. -/
def logOnlySubtypes : List String :=
  ["channel_join", "group_join", "channel_leave", "group_leave",
   "channel_topic", "group_topic"]

/-- Result of `LychiiBot.onIncomingMessage` for one inbound event. -/
inductive Outcome where
  /-- The acceptance filter rejected the event; nothing else ran. -/
  | rejected : Outcome
  /-- `trimMessage` threw a TypeError (absent text); the throw escapes the handler. -/
  | trimError : Outcome
  /-- A debug line dereferenced `channel.name` on an absent channel; the throw escapes before any fan-out. -/
  | logError : Outcome
  /-- A join/leave/topic subtype: a debug line only, no fan-out. -/
  | loggedOnly : Outcome
  /-- The plugin fan-out ran: the per-plugin invocation trace, and whether it completed without a plugin throwing. -/
  | fanout : List String → Bool → Outcome
deriving DecidableEq, Repr

/-- The plugin invocation trace of an outcome, when the fan-out was reached. -/
def fanoutTrace : Outcome → Option (List String)
  | Outcome.fanout tr _ => some tr
  | _ => none

/-- `LychiiBot.onIncomingMessage` (lines 151-184): filter, normalize,
then branch on the effective subtype; only the default branch calls
`processMessage`.  Every branch dereferences `channel.name` in its debug
line before doing anything else. -/
def onIncomingMessage (self : SelfIdentity) (plugins : List Plugin) (m : MetaMsg) : Outcome :=
  if !(isAcceptable self m) then Outcome.rejected
  else
    match trimMessage self.sname m with
    | none => Outcome.trimError
    | some m1 =>
      match m1.channel with
      | none => Outcome.logError
      | some _ =>
        if logOnlySubtypes.contains (effectiveSubtype m1) then Outcome.loggedOnly
        else
          let r := processMessage plugins m1
          Outcome.fanout r.1 r.2

/-- A user entry of the authentication payload: its id and its
`profile.bot_id`. -/
structure AuthUser where
  auid : Option String
  profileBotId : Option String
deriving DecidableEq, Repr

/-- A group entry of the authentication payload (`identity.groups`),
carrying its name. -/
structure GroupRec where
  gname : String
deriving DecidableEq, Repr

/-- The authentication payload (`identity`) delivered by the transport. -/
structure AuthPayload where
  selfId : Option String
  selfName : String
  teamName : String
  users : List AuthUser
  groups : List GroupRec
deriving DecidableEq, Repr

/-- The identity snapshot a successful `onAuthenticated` leaves behind. -/
structure BotIdentity where
  selfId : Option String
  selfName : String
  botId : Option String
  defaultChannel : GroupRec
deriving DecidableEq, Repr

/-- The bot-id loop (lines 113-117): the last user whose id strictly
equals the own id of the bot supplies `profile.bot_id`; `this.self.botId`
stays undefined when no user matches. -/
def resolveBotId (selfId : Option String) (us : List AuthUser) : Option String :=
  us.foldl (fun acc u => if u.auid == selfId then u.profileBotId else acc) none

/-- The default-channel loop (lines 120-124): the last group whose name
equals the configured name; `this.defaultChannel` stays null when none
matches. -/
def findDefaultChannel (cfg : String) (gs : List GroupRec) : Option GroupRec :=
  gs.foldl (fun acc g => if g.gname == cfg then some g else acc) none

/-- `LychiiBot.onAuthenticated` (lines 107-128).  Line 127 interpolates
`this.defaultChannel.name` into a debug string; when no group matched the
configured default channel that dereference throws a TypeError, modelled
as `none`: identity construction does not complete. -/
def onAuthenticated (cfgDefaultChannel : String) (p : AuthPayload) : Option BotIdentity :=
  let botId := resolveBotId p.selfId p.users
  match findDefaultChannel cfgDefaultChannel p.groups with
  | none => none
  | some ch =>
    some { selfId := p.selfId, selfName := p.selfName, botId := botId,
           defaultChannel := ch }

/-- Identity fixture shared by nothing outside claim C1: user id U1,
service id B1, display name lychii. -/
def c1self : SelfIdentity := { sid := some "U1", botId := some "B1", sname := "lychii" }

/-- An accepted channel message mentioning the bot, sent by another user. -/
def c1msg : MetaMsg :=
  { text := some "lychii hello", user := some { uid := some "U2" }, bot := none,
    channel := some "general", subtype := none, topic := none, isDM := false }

/-- Three registered plugins A, B, C in that order; the `processMessage`
of B throws on every event, A and C always return normally. -/
def c1plugins : List Plugin :=
  [{ pname := "A", hasInit := false, initOk := true, ok := fun _ => true },
   { pname := "B", hasInit := false, initOk := true, ok := fun _ => false },
   { pname := "C", hasInit := false, initOk := true, ok := fun _ => true }]

/-- Two plugin definitions in order: the `init` hook of the first throws,
the second is well behaved. -/
def c2defs : List Plugin :=
  [{ pname := "bad", hasInit := true, initOk := false, ok := fun _ => true },
   { pname := "good", hasInit := false, initOk := true, ok := fun _ => true }]

/-- An authentication payload whose group list has no entry named
"general". -/
def c3payload : AuthPayload :=
  { selfId := some "U1", selfName := "lychii", teamName := "T",
    users := [{ auid := some "U1", profileBotId := some "B1" }],
    groups := [{ gname := "random" }] }

/-- Identity fixture for claim C4. -/
def c4self : SelfIdentity := { sid := some "U1", botId := some "B1", sname := "lychii" }

/-- A direct message authored by the user record U1, the id of the bot itself. -/
def c4msg : MetaMsg :=
  { text := some "hi", user := some { uid := some "U1" }, bot := none,
    channel := some "dm", subtype := none, topic := none, isDM := true }

/-- Identity fixture for claim C5. -/
def c5self : SelfIdentity := { sid := some "U1", botId := some "B1", sname := "lychii" }

/-- A direct message whose sender user id equals the own user id of the bot. -/
def c5dm : MetaMsg :=
  { text := some "hello", user := some { uid := some "U1" }, bot := none,
    channel := some "dm", subtype := none, topic := none, isDM := true }

/-- A direct message from another user with empty text. -/
def c5other : MetaMsg :=
  { text := some "", user := some { uid := some "U2" }, bot := none,
    channel := some "dm", subtype := none, topic := none, isDM := true }

/-- Identity fixture for claim C6. -/
def c6self : SelfIdentity := { sid := some "U1", botId := some "B1", sname := "lychii" }

/-- A channel message from another user whose text does not start with
the bot name. -/
def c6msg : MetaMsg :=
  { text := some "hello world", user := some { uid := some "U2" }, bot := none,
    channel := some "general", subtype := none, topic := none, isDM := false }

/-- Identity fixture for claim C7. -/
def c7self : SelfIdentity := { sid := some "U1", botId := some "B1", sname := "lychii" }

/-- An accepted direct message carrying the subtype channel_join. -/
def c7join : MetaMsg :=
  { text := some "x", user := some { uid := some "U2" }, bot := none,
    channel := some "general", subtype := some "channel_join", topic := none, isDM := true }

/-- One always-succeeding plugin, to show the fan-out is skipped even
with a plugin registered. -/
def c7plugins : List Plugin :=
  [{ pname := "A", hasInit := false, initOk := true, ok := fun _ => true }]

/-- Three well-behaved plugins A, B, C registered in that order: inits
succeed and `processMessage` always returns normally. -/
def c8defs : List Plugin :=
  [{ pname := "A", hasInit := true, initOk := true, ok := fun _ => true },
   { pname := "B", hasInit := false, initOk := true, ok := fun _ => true },
   { pname := "C", hasInit := true, initOk := true, ok := fun _ => true }]

/-- Identity fixture for claim C8. -/
def c8self : SelfIdentity := { sid := some "U1", botId := some "B1", sname := "lychii" }

/-- A forwarded message-category event for claim C8. -/
def c8msg : MetaMsg :=
  { text := some "hello", user := some { uid := some "U2" }, bot := none,
    channel := some "general", subtype := none, topic := none, isDM := true }

/-- A mention-free, already trimmed event text for claim C9. -/
def c9msg : MetaMsg :=
  { text := some "hello world", user := some { uid := some "U2" }, bot := none,
    channel := some "general", subtype := none, topic := none, isDM := true }

/-- Identity fixture for claim C10. -/
def c10self : SelfIdentity := { sid := some "U1", botId := some "B1", sname := "lychii" }

/-- A direct message from another user that carries no text field at
all: the acceptance filter accepts it without looking at the text. -/
def c10msg : MetaMsg :=
  { text := none, user := some { uid := some "U2" }, bot := none,
    channel := some "dm", subtype := none, topic := none, isDM := true }

/-- A successful normalization leaves every field but the text unchanged;
in particular the subtype the classifier branches on. -/
theorem trimMessage_subtype (name : String) (m m1 : MetaMsg)
    (h : trimMessage name m = some m1) : m1.subtype = m.subtype := by
  unfold trimMessage at h
  cases ht : m.text with
  | none => rw [ht] at h; simp at h
  | some t =>
    rw [ht] at h
    simp at h
    rw [← h]

/-- The effective subtype only reads the subtype field. -/
theorem effectiveSubtype_congr (m m1 : MetaMsg) (h : m1.subtype = m.subtype) :
    effectiveSubtype m1 = effectiveSubtype m := by
  unfold effectiveSubtype
  rw [h]

/-- When the mention regex does not match, the replacement is the
identity. -/
theorem stripMention_no_match (name t : String) (h : mentionTest name t = false) :
    stripMention name t = t := by
  unfold stripMention
  unfold mentionTest at h
  cases hm : matchMention name.toList t.toList with
  | none => rfl
  | some r => rw [hm] at h; simp at h

/-- When every registered plugin handles the event without throwing, the
fan-out enters each of them, in list order, and completes. -/
theorem processMessage_all_ok (ps : List Plugin) (m : MetaMsg)
    (h : ∀ p ∈ ps, p.ok m = true) :
    processMessage ps m = (ps.map Plugin.pname, true) := by
  induction ps with
  | nil => rfl
  | cons p ps ih =>
    have hp : p.ok m = true := h p (List.mem_cons_self p ps)
    unfold processMessage
    rw [hp]
    simp [ih (fun q hq => h q (List.mem_cons_of_mem p hq))]

/-- When the init hook of every plugin definition succeeds, loading
appends all definitions, in order, and completes. -/
theorem loadPlugins_all_ok (ds : List Plugin) :
    ∀ regd : List Plugin, (∀ d ∈ ds, d.hasInit = false ∨ d.initOk = true) →
    loadPlugins ds regd = (regd ++ ds, true) := by
  induction ds with
  | nil => intro regd _; simp [loadPlugins]
  | cons d ds ih =>
    intro regd h
    have hd : d.hasInit = false ∨ d.initOk = true := h d (List.mem_cons_self d ds)
    have hflag : (registerPlugin regd d).2 = true := by
      unfold registerPlugin
      rcases hd with h1 | h1 <;> simp [h1]
    show (if (registerPlugin regd d).2 = true then loadPlugins ds (registerPlugin regd d).1
          else ((registerPlugin regd d).1, false)) = (regd ++ d :: ds, true)
    rw [hflag]
    simp only [if_true]
    rw [ih (registerPlugin regd d).1 (fun q hq => h q (List.mem_cons_of_mem d hq))]
    unfold registerPlugin
    simp

/-- When the effective subtype is one of the six log-only subtypes, the
handler never reaches the plugin fan-out, whatever the filter, the text
and the channel contribute. -/
theorem onIncoming_logonly (self : SelfIdentity) (ps : List Plugin) (m : MetaMsg)
    (h : logOnlySubtypes.contains (effectiveSubtype m) = true) :
    fanoutTrace (onIncomingMessage self ps m) = none := by
  unfold onIncomingMessage
  split
  · rfl
  · split
    · rfl
    · rename_i m1 heq
      split
      · rfl
      · have hsub : logOnlySubtypes.contains (effectiveSubtype m1) = true := by
          rw [effectiveSubtype_congr m m1 (trimMessage_subtype self.sname m m1 heq)]
          exact h
        rw [if_pos hsub]
        rfl

/-- Conversely, reaching the fan-out means the effective subtype fell to
the default branch of the switch. -/
theorem onIncoming_fanout_subtype (self : SelfIdentity) (ps : List Plugin) (m : MetaMsg)
    (tr : List String) (b : Bool)
    (h : onIncomingMessage self ps m = Outcome.fanout tr b) :
    logOnlySubtypes.contains (effectiveSubtype m) = false := by
  unfold onIncomingMessage at h
  split at h
  · exact Outcome.noConfusion h
  · split at h
    · exact Outcome.noConfusion h
    · rename_i m1 heq
      split at h
      · exact Outcome.noConfusion h
      · split at h
        · exact Outcome.noConfusion h
        · rename_i hc
          rw [← effectiveSubtype_congr m m1 (trimMessage_subtype self.sname m m1 heq)]
          simpa using hc

/-- Claim C1 (code bug): the spec requires per-plugin isolation of the
fan-out, but the `map` at lines 209-211 has no try/catch.  With plugins
A, B, C registered in that order and the `processMessage` of B throwing
on an accepted message, the handler enters A and B, never enters C, and
the exception escapes the dispatcher (the completion flag is false)
instead of being reported per plugin. -/
theorem c1_plugin_throw_aborts_fanout :
    c1plugins.map Plugin.pname = ["A", "B", "C"] ∧
    onIncomingMessage c1self c1plugins c1msg = Outcome.fanout ["A", "B"] false :=
  ⟨rfl, rfl⟩

/-- Claim C2 (code bug): the spec requires a throwing `init` hook to be
caught and reported without aborting registration of later plugins, but
`registerPlugin` calls the hook bare.  Loading the definitions
[bad, good] where the init of bad throws registers only bad: good is
never instantiated and loading does not complete. -/
theorem c2_init_throw_aborts_loading :
    (loadPlugins c2defs []).1.map Plugin.pname = ["bad"] ∧
    (loadPlugins c2defs []).2 = false :=
  ⟨rfl, rfl⟩

/-- Claim C3 (code bug): the spec requires a missing default channel to
be reported as a configuration error at startup, but when no group of
the payload is named "general" the debug line 127 dereferences
`this.defaultChannel.name` on null, so identity construction throws
instead of completing with a report. -/
theorem c3_missing_default_channel_crash :
    findDefaultChannel "general" c3payload.groups = none ∧
    onAuthenticated "general" c3payload = none :=
  ⟨rfl, rfl⟩

/-- Claim C4: an event whose sender is a user record carrying the own
user id of the bot is rejected by the acceptance filter, whatever its
text and whether or not it is a direct message. -/
theorem c4_self_authored_rejected (self : SelfIdentity) (m : MetaMsg) (u : UserRec)
    (hu : m.user = some u) (hid : u.uid = self.sid) :
    isAcceptable self m = false := by
  simp [isAcceptable, isSelfUser, hu, hid]

/-- Witness for claim C4 at a concrete self-authored direct message. -/
theorem c4_self_authored_rejected_witness : isAcceptable c4self c4msg = false :=
  c4_self_authored_rejected c4self c4msg { uid := some "U1" } rfl rfl

/-- Claim C5, counterexample: a direct message whose sender user id
equals the own user id of the bot is rejected, so the filter does not
accept every event whose isDM flag is true. -/
theorem c5_self_dm_rejected :
    c5dm.isDM = true ∧ isAcceptable c5self c5dm = false :=
  ⟨rfl, rfl⟩

/-- Claim C5 as amended: a direct message whose sender is not
self-authored (neither a user record with the own user id of the bot
nor a bot record with its service id) is accepted whatever its text,
including empty text. -/
theorem c5_dm_accepted_unless_self (self : SelfIdentity) (m : MetaMsg)
    (hdm : m.isDM = true) (hu : isSelfUser self m = false) (hb : isSelfBot self m = false) :
    isAcceptable self m = true := by
  simp [isAcceptable, hu, hb, hdm]

/-- Witness for the amended claim C5 at a direct message with empty text
from another user. -/
theorem c5_dm_accepted_unless_self_witness : isAcceptable c5self c5other = true :=
  c5_dm_accepted_unless_self c5self c5other rfl rfl rfl

/-- Claim C6: a non-direct event from a sender that is not self-authored
whose text does not start with the mention pattern (optional at-sign,
the bot name case-insensitively, then whitespace) is rejected. -/
theorem c6_unmentioned_rejected (self : SelfIdentity) (m : MetaMsg) (t : String)
    (hdm : m.isDM = false) (hu : isSelfUser self m = false) (hb : isSelfBot self m = false)
    (ht : m.text = some t) (hm : mentionTest self.sname t = false) :
    isAcceptable self m = false := by
  simp [isAcceptable, hu, hb, hdm, ht, hm]

/-- Witness for claim C6 at a concrete channel message that does not
mention the bot. -/
theorem c6_unmentioned_rejected_witness : isAcceptable c6self c6msg = false :=
  c6_unmentioned_rejected c6self c6msg "hello world" rfl rfl rfl rfl (by decide)

/-- Claim C7: a join, leave or topic subtype never reaches the plugin
fan-out, and every event that does reach the fan-out carries an
effective subtype outside those six, i.e. one of the default branch. -/
theorem c7_only_default_branch_forwarded (self : SelfIdentity) (ps : List Plugin) (m : MetaMsg) :
    (∀ s, m.subtype = some s → s ∈ logOnlySubtypes →
      fanoutTrace (onIncomingMessage self ps m) = none)
    ∧ (∀ tr b, onIncomingMessage self ps m = Outcome.fanout tr b →
      effectiveSubtype m ∉ logOnlySubtypes) := by
  constructor
  · intro s hsub hmem
    apply onIncoming_logonly
    have hne : s ≠ "" := by
      intro he
      subst he
      exact absurd hmem (by decide)
    have hs : effectiveSubtype m = s := by
      unfold effectiveSubtype
      rw [hsub]
      simp [hne]
    rw [hs]
    exact List.elem_iff.mpr hmem
  · intro tr b hfan hmem
    have hc := onIncoming_fanout_subtype self ps m tr b hfan
    have h2 : logOnlySubtypes.contains (effectiveSubtype m) = true := List.elem_iff.mpr hmem
    rw [h2] at hc
    exact Bool.noConfusion hc

/-- Witness for claim C7 at a concrete accepted channel_join event with
one plugin registered. -/
theorem c7_only_default_branch_forwarded_witness :
    fanoutTrace (onIncomingMessage c7self c7plugins c7join) = none :=
  (c7_only_default_branch_forwarded c7self c7plugins c7join).1 "channel_join" rfl (by decide)

/-- Claim C8: registering a list of well-behaved plugin definitions
yields the registry in definition order, and the fan-out of any event
those plugins all handle invokes them in exactly that order; the order
does not depend on the event. -/
theorem c8_dispatch_order_is_registration_order (ds : List Plugin) (m : MetaMsg)
    (hinit : ∀ d ∈ ds, d.hasInit = false ∨ d.initOk = true)
    (hok : ∀ d ∈ ds, d.ok m = true) :
    (loadPlugins ds []).1 = ds ∧
    (processMessage (loadPlugins ds []).1 m).1 = ds.map Plugin.pname := by
  have hl := loadPlugins_all_ok ds [] hinit
  constructor
  · rw [hl]
    simp
  · rw [hl]
    simp only [List.nil_append]
    rw [processMessage_all_ok ds m hok]

/-- Witness for claim C8 at three concrete plugins A, B, C. -/
theorem c8_dispatch_order_is_registration_order_witness :
    (loadPlugins c8defs []).1 = c8defs ∧
    (processMessage (loadPlugins c8defs []).1 c8msg).1 = c8defs.map Plugin.pname :=
  c8_dispatch_order_is_registration_order c8defs c8msg (by decide) (by decide)

/-- Claim C9: the normalizer is the identity on an event whose text is
already trimmed and carries no mention of the bot: trimming changes
nothing and the replacement finds no match. -/
theorem c9_normalizer_idempotent (name t : String) (m : MetaMsg)
    (htext : m.text = some t) (htrim : jsTrim t = t)
    (hment : mentionTest name t = false) :
    trimMessage name m = some { m with text := some t } := by
  simp only [trimMessage, htext]
  rw [htrim, stripMention_no_match name t hment]

/-- Witness for claim C9 at the mention-free trimmed text
"hello world". -/
theorem c9_normalizer_idempotent_witness :
    trimMessage "lychii" c9msg = some { c9msg with text := some "hello world" } :=
  c9_normalizer_idempotent "lychii" "hello world" c9msg rfl (by decide) (by decide)

/-- Claim C10: a direct message from another user that carries no text
field passes the acceptance filter without its text being read, and the
normalizer then throws on the absent text, so the per-event pipeline is
not total on accepted events. -/
theorem c10_absent_text_crashes_pipeline :
    isAcceptable c10self c10msg = true ∧ c10msg.text = none ∧
    trimMessage c10self.sname c10msg = none ∧
    onIncomingMessage c10self [] c10msg = Outcome.trimError :=
  ⟨rfl, rfl, rfl, rfl⟩
